import Mathlib

/-!
Verification development for the appointment scheduling / sale-closing core of
a vehicle-detailing shop management application (single Python/Flask file,
`app.py`).  The data model (Service, VehicleType, ServicePrice, Appointment,
ServiceSale, Client) and the operations `calculate_real_duration_minutes`,
`calculate_real_price`, `appointment_already_closed`, `upsert_client_from_appointment`,
`new_appointment`, `edit_appointment` and `close_appointment` are shallowly
embedded below.  SQLAlchemy tables are embedded as lists of records, queries as
list searches in table order, and the request-scoped database session as
explicit state passing.  Python float arithmetic inside the duration formula
(`d * 0.5` and `round`) is modeled by exact rational arithmetic together with
round-half-to-even, which coincides with IEEE double behaviour for all duration
magnitudes below 2^52.  Python `datetime` values are modeled as a day index
plus a minute-of-day; `timedelta(minutes=m)` becomes `Datetime.addMinutes`.
-/

/-- Python's built-in `round` (round to nearest, ties to even), modeled on
exact rationals.  Used only to state specifications; the executable embedding
below carries doubled integers instead (see `pyRoundHalf`). -/
def pyRound (q : ℚ) : ℤ :=
  if q - ⌊q⌋ < 1/2 then ⌊q⌋
  else if 1/2 < q - ⌊q⌋ then ⌊q⌋ + 1
  else if ⌊q⌋ % 2 = 0 then ⌊q⌋ else ⌊q⌋ + 1

/-- Rounds `n / 2` with ties to even, on the doubled integer `n`.  The float
`longest + sum(d * 0.5 for d in others)` is always an exact multiple of `1/2`,
so the source's `int(round(total))` is exactly this function applied to
`2 * total`.  Both divisions below are exact, hence independent of the
division convention. -/
def pyRoundHalf (n : Int) : Int :=
  if n % 2 = 0 then n / 2
  else if ((n - 1) / 2) % 2 = 0 then (n - 1) / 2 else (n - 1) / 2 + 1

/-- Model of a Python `datetime`: a day index (the `.date()` part) and the
minute within that day. -/
structure Datetime where
  day : Int
  minute : Int
deriving DecidableEq

/-- Computes `dt + timedelta(minutes=m)`, normalizing overflow into the day index the
way `datetime` arithmetic does (floor division). -/
def Datetime.addMinutes (dt : Datetime) (m : Int) : Datetime :=
  { day := dt.day + (dt.minute + m).fdiv 1440, minute := (dt.minute + m).emod 1440 }

/-- Row of the `services` table. -/
structure Service where
  id : Int
  name : String
  duration_minutes : Int
  is_active : Bool
deriving DecidableEq

/-- Row of the `vehicle_types` table. -/
structure VehicleType where
  id : Int
  name : String
  is_active : Bool
deriving DecidableEq

/-- Row of the `service_prices` table (price and real duration per
service x vehicle-type pair). -/
structure ServicePrice where
  service_id : Int
  vehicle_type_id : Int
  price : Int
  duration_minutes : Int
  is_active : Bool
deriving DecidableEq

/-- Row of the `appointments` table.  `vehicle_type_id` is nullable for
appointments created before the schema migration. -/
structure Appointment where
  id : Int
  customer_name : Option String
  plate : Option String
  phone : Option String
  services : String
  start_datetime : Datetime
  end_datetime : Datetime
  notes : Option String
  vehicle_type_id : Option Int
deriving DecidableEq

/-- Row of the `service_sales` table (append-only sales ledger).
`service_date` is a `db.Date`, modeled as the day index. -/
structure ServiceSale where
  appointment_id : Int
  service_date : Int
  created_at : Datetime
  vehicle_type : String
  plate : Option String
  customer_name : Option String
  services : String
  base_amount : Int
  discount_amount : Int
  final_amount : Int
  payment_method : Option String
  status : String
  notes : Option String
deriving DecidableEq

/-- Row of the `clients` table, keyed by normalized plate.  The audit
timestamps (`created_at`, `updated_at`) are not modeled. -/
structure Client where
  plate : String
  full_name : Option String
  phone : Option String
deriving DecidableEq

/-- The relational store.  Each table is a list in physical row order;
`next_appointment_id` models the autoincrement counter of `appointments`. -/
structure DBState where
  services : List Service
  vehicle_types : List VehicleType
  service_prices : List ServicePrice
  appointments : List Appointment
  sales : List ServiceSale
  clients : List Client
  next_appointment_id : Int
deriving DecidableEq

/-- Python's `str.strip()`: drop leading and trailing whitespace. -/
def pyStrip (s : String) : String :=
  String.mk (((s.data.dropWhile Char.isWhitespace).reverse.dropWhile Char.isWhitespace).reverse)

/-- Helper for `pySplitComma`, walking the character list with the pending
piece accumulated in reverse. -/
def splitCommaAux : List Char → List Char → List String
  | [], acc => [String.mk acc.reverse]
  | x :: xs, acc =>
      if x = ',' then String.mk acc.reverse :: splitCommaAux xs []
      else splitCommaAux xs (x :: acc)

/-- Python's `str.split(",")`. -/
def pySplitComma (s : String) : List String := splitCommaAux s.data []

/-- The helper `normalize_plate`: `"".join(value.split()).upper()` — drop all whitespace
and uppercase.  `None` and the empty string both normalize to the empty
string. -/
def normalize_plate (value : Option String) : String :=
  match value with
  | none => ""
  | some v => String.mk ((v.data.filter (fun c => ¬ c.isWhitespace)).map Char.toUpper)

/-- The `filter_by(service_id=sid, vehicle_type_id=vtid, is_active=True)`
predicate used by both estimators.  A `None` vehicle type (SQL `IS NULL`)
matches no row since `service_prices.vehicle_type_id` is non-nullable. -/
def spPred (sid : Int) (vtid : Option Int) (sp : ServicePrice) : Bool :=
  sp.service_id == sid && (some sp.vehicle_type_id == vtid) && sp.is_active

/-- Duration resolution for one requested service: the active ServicePrice row
for (service, vehicle type) if any, else the service's base duration, else
nothing (unknown service id contributes no duration). -/
def resolveDuration (st : DBState) (vtid : Option Int) (sid : Int) : Option Int :=
  match st.service_prices.find? (spPred sid vtid) with
  | some sp => some sp.duration_minutes
  | none => (st.services.find? (fun s => s.id == sid)).map (fun s => s.duration_minutes)

/-- The list `durations` built by the loop of `calculate_real_duration_minutes`. -/
def resolvedDurations (st : DBState) (service_ids : List Int) (vtid : Option Int) : List Int :=
  service_ids.filterMap (resolveDuration st vtid)

/-- Lines 429-437 of the source: 60-minute fallback for an empty list, else
sort descending and return `int(round(longest + sum(d * 0.5 for d in others)))`.
The rounded value `longest + others.sum / 2` is carried as its doubled
numerator `2 * longest + others.sum`. -/
def overlapDuration (durations : List Int) : Int :=
  if durations = [] then 60
  else
    match durations.insertionSort (fun a b => a ≥ b) with
    | [] => 60
    | longest :: others => pyRoundHalf (2 * longest + others.sum)

/-- The helper `calculate_real_duration_minutes(service_ids, vehicle_type_id)`. -/
def calculate_real_duration_minutes (st : DBState) (service_ids : List Int)
    (vehicle_type_id : Option Int) : Int :=
  overlapDuration (resolvedDurations st service_ids vehicle_type_id)

/-- One iteration of the accumulation loop of `calculate_real_price`. -/
def priceStep (st : DBState) (vtid : Option Int) (total : Int) (sid : Int) : Int :=
  match st.service_prices.find? (spPred sid vtid) with
  | some sp => total + sp.price
  | none => total

/-- The helper `calculate_real_price(service_ids, vehicle_type_id)`: sum the active
ServicePrice rows, ignoring services with no matching row. -/
def calculate_real_price (st : DBState) (service_ids : List Int)
    (vehicle_type_id : Option Int) : Int :=
  service_ids.foldl (priceStep st vehicle_type_id) 0

/-- The price contribution of a single service id (used to state additivity;
it is the body of the loop of `calculate_real_price`). -/
def priceContribution (st : DBState) (vtid : Option Int) (sid : Int) : Int :=
  match st.service_prices.find? (spPred sid vtid) with
  | some sp => sp.price
  | none => 0

/-- The helper `appointment_already_closed(appointment_id)`: a ServiceSale row
referencing the appointment exists. -/
def appointment_already_closed (st : DBState) (appointment_id : Int) : Bool :=
  (st.sales.find? (fun s => s.appointment_id == appointment_id)).isSome

/-- The helper `upsert_client_from_appointment(plate, full_name, phone)`: create or
update the client keyed by normalized plate; a blank incoming field never
overwrites the stored one. -/
def upsert_client_from_appointment (clients : List Client) (plate : String)
    (full_name phone : Option String) : List Client :=
  let plate_n := normalize_plate (some plate)
  if plate_n = "" then clients
  else
    let fn := pyStrip (full_name.getD "")
    let ph := pyStrip (phone.getD "")
    match clients.find? (fun c => c.plate == plate_n) with
    | some _ =>
        clients.map (fun c =>
          if c.plate == plate_n then
            { c with
              full_name := if fn ≠ "" then some fn else c.full_name
              phone := if ph ≠ "" then some ph else c.phone }
          else c)
    | none =>
        clients ++ [{ plate := plate_n
                      full_name := if fn = "" then none else some fn
                      phone := if ph = "" then none else some ph }]

/-- Python's `value or default` for an optional string form field: `None` and
the empty string both fall back to the default. -/
def pyOr (value : Option String) (default : String) : String :=
  match value with
  | none => default
  | some s => if s = "" then default else s

/-- Parsed POST form of the `new_appointment` route.  `start` stands for the
pair (`date`, `start_time`); it is `none` when either field is missing, and
otherwise holds the `strptime`-parsed timestamp. -/
structure ApptForm where
  customer_name : Option String
  plate : Option String
  phone : Option String
  start : Option Datetime
  notes : Option String
  service_ids : List Int
  vehicle_type_id : Option Int
deriving DecidableEq

/-- Outcome of the POST branch of `new_appointment`: the persisted state and
appointment on success, or the flash-and-redirect validation failure taken. -/
inductive CreateResult where
  | ok (st : DBState) (appt : Appointment)
  | missingDatetime
  | noServiceSelected
  | noVehicleType
  | invalidServices
deriving DecidableEq

/-- The services selected on a form: `Service.query.filter(Service.id.in_(ids))`,
in table order, active or not. -/
def selectedServices (st : DBState) (ids : List Int) : List Service :=
  st.services.filter (fun s => ids.contains s.id)

/-- POST branch of `new_appointment` (lines 658-724): validate, resolve the
selected services, compute duration and end time, snapshot the service names,
upsert the client and persist the appointment.  The `estimated_price` local of
the source is computed and discarded there as well. -/
def new_appointment (st : DBState) (form : ApptForm) : CreateResult :=
  if form.start.isNone then CreateResult.missingDatetime
  else if form.service_ids.isEmpty then CreateResult.noServiceSelected
  else if form.vehicle_type_id.isNone then CreateResult.noVehicleType
  else
    match form.start, form.vehicle_type_id with
    | some start_dt, some vtid =>
      if (selectedServices st form.service_ids).isEmpty then CreateResult.invalidServices
      else
        let customer_name := pyOr form.customer_name "Sin nombre"
        let plate := normalize_plate (some (pyOr form.plate ""))
        let phone := pyOr form.phone ""
        let notes := pyOr form.notes ""
        let selected := selectedServices st form.service_ids
        let service_ids := selected.map (fun s => s.id)
        let total_minutes := calculate_real_duration_minutes st service_ids (some vtid)
        let _estimated_price := calculate_real_price st service_ids (some vtid)
        let end_dt := start_dt.addMinutes total_minutes
        let services_str := String.intercalate ", " (selected.map (fun s => s.name))
        let clients' := upsert_client_from_appointment st.clients plate (some customer_name) (some phone)
        let appt : Appointment :=
          { id := st.next_appointment_id
            customer_name := some customer_name
            plate := some plate
            phone := some phone
            services := services_str
            start_datetime := start_dt
            end_datetime := end_dt
            notes := some notes
            vehicle_type_id := some vtid }
        CreateResult.ok
          { st with
            appointments := st.appointments ++ [appt]
            clients := clients'
            next_appointment_id := st.next_appointment_id + 1 }
          appt
    | none, _ => CreateResult.missingDatetime
    | _, none => CreateResult.noVehicleType

/-- The duration computation of the POST branch of `edit_appointment`
(lines 774-790): when the appointment carries a (truthy) vehicle type id, the
shared helper is used; otherwise the legacy fallback takes the base durations
of the selected services, `longest = max`, `extras = sum - longest`, and
returns `longest + int(extras * 0.5)` — `int(...)` truncates toward zero,
which is `Int.tdiv` on the doubled half. -/
def edit_duration (st : DBState) (selected : List Service) (vehicle_type_id : Option Int) : Int :=
  if vehicle_type_id.getD 0 ≠ 0 then
    calculate_real_duration_minutes st (selected.map (fun s => s.id)) vehicle_type_id
  else
    match selected.map (fun s => s.duration_minutes) with
    | [] => 60
    | d :: ds => (ds.foldl max d) + Int.tdiv ((d :: ds).sum - ds.foldl max d) 2

/-- Parsed POST form of `edit_appointment`.  `customer_name`, `plate`, `notes`
come from `request.form[...]` (required), `phone` from `.get` (optional). -/
structure EditForm where
  customer_name : String
  plate : String
  phone : Option String
  notes : String
  start : Datetime
  service_ids : List Int
deriving DecidableEq

/-- POST branch of `edit_appointment` (lines 749-800): 404 when the
appointment id is unknown (modeled as `none`), otherwise update the fields,
recompute the services string and the end time, and re-upsert the client. -/
def edit_appointment (st : DBState) (appointment_id : Int) (form : EditForm) : Option DBState :=
  match st.appointments.find? (fun a => a.id == appointment_id) with
  | none => none
  | some appt =>
    let selected := selectedServices st form.service_ids
    let plate := normalize_plate (some form.plate)
    let total_duration := edit_duration st selected appt.vehicle_type_id
    let appt' : Appointment :=
      { appt with
        customer_name := some form.customer_name
        plate := some plate
        phone := some (form.phone.getD "")
        notes := some form.notes
        services := String.intercalate ", " (selected.map (fun s => s.name))
        start_datetime := form.start
        end_datetime := form.start.addMinutes total_duration }
    let clients' := upsert_client_from_appointment st.clients plate
      (some form.customer_name) (some (form.phone.getD ""))
    some { st with
           appointments := st.appointments.map (fun a => if a.id == appointment_id then appt' else a)
           clients := clients' }

/-- JSON body of the close request; absent fields model `data.get(...)`
returning `None`. -/
structure CloseRequest where
  payment_method : Option String
  status : Option String
  discount : Option Int
  notes : Option String
deriving DecidableEq

/-- Models `(data.get("payment_method") or "").strip()`. -/
def closePM (req : CloseRequest) : String := pyStrip (req.payment_method.getD "")

/-- Models `(data.get("status") or "").strip()`. -/
def closeStatus (req : CloseRequest) : String := pyStrip (req.status.getD "")

/-- Models `int(data.get("discount") or 0)`. -/
def closeDiscount (req : CloseRequest) : Int := req.discount.getD 0

/-- Models `(data.get("notes") or "").strip()`. -/
def closeNotes (req : CloseRequest) : String := pyStrip (req.notes.getD "")

/-- Outcome of `close_appointment`: success, or one of its 404/400 errors. -/
inductive CloseResult where
  | ok
  | notFound
  | alreadyClosed
  | invalidStatus
  | paymentRequired
deriving DecidableEq

/-- The ServiceSale row built by `close_appointment` (lines 1470-1499):
re-resolve the denormalized services string by exact name, price it for the
appointment's vehicle type, clamp the discount and the final amount, snapshot
the appointment fields.  `service_date` is `appt.start_datetime.date()`;
`created_at` defaults to the wall-clock time of the insert (`now`). -/
def mkSale (st : DBState) (appt : Appointment) (req : CloseRequest) (now : Datetime) : ServiceSale :=
  let service_names := ((pySplitComma appt.services).map pyStrip).filter (fun s => s ≠ "")
  let services := st.services.filter (fun s => service_names.contains s.name)
  let base_amount := calculate_real_price st (services.map (fun s => s.id)) appt.vehicle_type_id
  let discount_amount := max (closeDiscount req) 0
  let vt_name :=
    match appt.vehicle_type_id.bind (fun vid => st.vehicle_types.find? (fun v => v.id == vid)) with
    | some vt => vt.name
    | none => "N/A"
  { appointment_id := appt.id
    service_date := appt.start_datetime.day
    created_at := now
    vehicle_type := vt_name
    plate := appt.plate
    customer_name := appt.customer_name
    services := appt.services
    base_amount := base_amount
    discount_amount := discount_amount
    final_amount := max (base_amount - discount_amount) 0
    payment_method := if closeStatus req = "completed" then some (closePM req) else none
    status := closeStatus req
    notes := if closeNotes req = "" then none else some (closeNotes req) }

/-- The route `close_appointment(appointment_id)` (lines 1447-1504): 404 on unknown id,
400 when already closed, 400 on unrecognized status, 400 when a completed
close lacks a payment method; otherwise insert the ServiceSale and commit. -/
def close_appointment (st : DBState) (appointment_id : Int) (req : CloseRequest)
    (now : Datetime) : CloseResult × DBState :=
  match st.appointments.find? (fun a => a.id == appointment_id) with
  | none => (CloseResult.notFound, st)
  | some appt =>
    if appointment_already_closed st appointment_id then (CloseResult.alreadyClosed, st)
    else if ¬ (closeStatus req = "completed" ∨ closeStatus req = "cancelled") then
      (CloseResult.invalidStatus, st)
    else if closeStatus req = "completed" ∧ closePM req = "" then
      (CloseResult.paymentRequired, st)
    else
      (CloseResult.ok, { st with sales := st.sales ++ [mkSale st appt req now] })


/-! ## Concrete database fixtures used to exercise the theorems -/

/-- Catalog with three services of base durations 160/60/60 and one vehicle
type with no price rows. -/
def exSt3 : DBState :=
  { services := [⟨1, "Wash Morado", 160, true⟩, ⟨2, "Chasis", 60, true⟩, ⟨3, "Motor", 60, true⟩]
    vehicle_types := [⟨1, "SUV", true⟩]
    service_prices := []
    appointments := []
    sales := []
    clients := []
    next_appointment_id := 1 }

/-- A creation form selecting the three services of `exSt3`, starting at
09:00 of day 0. -/
def exForm3 : ApptForm :=
  { customer_name := some "Ana"
    plate := some " abc 123 "
    phone := some "300"
    start := some ⟨0, 540⟩
    notes := some ""
    service_ids := [1, 2, 3]
    vehicle_type_id := some 1 }

/-- The appointment `new_appointment exSt3 exForm3` persists. -/
def exAppt3 : Appointment :=
  { id := 1
    customer_name := some "Ana"
    plate := some "ABC123"
    phone := some "300"
    services := "Wash Morado, Chasis, Motor"
    start_datetime := ⟨0, 540⟩
    end_datetime := ⟨0, 760⟩
    notes := some ""
    vehicle_type_id := some 1 }

/-- The state `new_appointment exSt3 exForm3` produces. -/
def exSt3' : DBState :=
  { exSt3 with
    appointments := [exAppt3]
    clients := [⟨"ABC123", some "Ana", some "300"⟩]
    next_appointment_id := 2 }

/-- Catalog with two priced services (ids 1, 2) on vehicle type 7, plus an
open appointment for them. -/
def exCloseSt : DBState :=
  { services := [⟨1, "A", 60, true⟩, ⟨2, "B", 51, true⟩]
    vehicle_types := [⟨7, "SUV", true⟩]
    service_prices := [⟨1, 7, 100, 50, true⟩, ⟨2, 7, 80, 40, true⟩]
    appointments := [⟨1, some "Ana", some "ABC123", some "300", "A, B", ⟨1, 540⟩, ⟨1, 630⟩, none, some 7⟩]
    sales := []
    clients := []
    next_appointment_id := 2 }

/-- A completed close request whose discount (300) exceeds the base amount
(180). -/
def exCloseReq : CloseRequest :=
  { payment_method := some "Efectivo", status := some "completed", discount := some 300, notes := none }

/-- A cancelled close request that still carries a payment method. -/
def exCancelReq : CloseRequest :=
  { payment_method := some "Efectivo", status := some "cancelled", discount := none, notes := none }

/-- State after closing `exCloseSt`'s appointment with `exCloseReq`. -/
def exC3St : DBState := (close_appointment exCloseSt 1 exCloseReq ⟨1, 700⟩).2

/-- State after closing `exCloseSt`'s appointment with `exCancelReq`. -/
def exC7St : DBState := (close_appointment exCloseSt 1 exCancelReq ⟨1, 700⟩).2

/-- State after closing `exCloseSt`'s appointment on day 2. -/
def exC4St : DBState := (close_appointment exCloseSt 1 exCloseReq ⟨2, 100⟩).2

/-- Like `exCloseSt`, but the appointment has no vehicle type. -/
def exNullVtSt : DBState :=
  { exCloseSt with
    appointments := [⟨1, some "Ana", some "ABC123", some "300", "A, B", ⟨1, 540⟩, ⟨1, 630⟩, none, none⟩] }

/-- Catalog with services of base durations 60 and 51, a vehicle type with no
price rows, and a legacy appointment without a vehicle type. -/
def exStC6 : DBState :=
  { services := [⟨1, "A", 60, true⟩, ⟨2, "B", 51, true⟩]
    vehicle_types := [⟨7, "SUV", true⟩]
    service_prices := []
    appointments := [⟨1, some "Ana", some "ABC123", none, "A, B", ⟨0, 0⟩, ⟨0, 85⟩, none, none⟩]
    sales := []
    clients := []
    next_appointment_id := 2 }

/-- The two services of `exStC6`, as the edit route selects them. -/
def exSel : List Service := [⟨1, "A", 60, true⟩, ⟨2, "B", 51, true⟩]

/-- An edit form keeping the services and start of `exStC6`'s appointment. -/
def exEditForm : EditForm :=
  { customer_name := "Ana", plate := "ABC123", phone := none, notes := "", start := ⟨0, 0⟩
    service_ids := [1, 2] }

/-- A stored client with a known name and phone. -/
def exClients : List Client := [⟨"ABC123", some "Ana", some "300"⟩]

/-! ## General lemmas about the rounding model -/

theorem pyRound_intCast (n : ℤ) : pyRound ((n : ℚ)) = n := by
  unfold pyRound
  rw [Int.floor_intCast, sub_self]
  norm_num

theorem pyRound_int_add_half (n : ℤ) :
    pyRound ((n : ℚ) + 1/2) = if n % 2 = 0 then n else n + 1 := by
  have h0 : ⌊(1/2 : ℚ)⌋ = 0 := by
    rw [Int.floor_eq_iff]
    constructor <;> norm_num
  have hf : ⌊(n : ℚ) + 1/2⌋ = n := by rw [Int.floor_int_add, h0, add_zero]
  unfold pyRound
  rw [hf]
  have hsub : (n : ℚ) + 1/2 - (n : ℚ) = 1/2 := by ring
  rw [hsub]
  norm_num

theorem pyRoundHalf_eq_pyRound (n : ℤ) : pyRoundHalf n = pyRound ((n : ℚ) / 2) := by
  rcases Int.even_or_odd n with ⟨k, hk⟩ | ⟨k, hk⟩
  · subst hk
    have h2 : ((k + k : ℤ) : ℚ) / 2 = (k : ℚ) := by push_cast; ring
    rw [h2, pyRound_intCast]
    unfold pyRoundHalf
    rw [if_pos (by omega : (k + k) % 2 = 0)]
    omega
  · subst hk
    have h2 : ((2 * k + 1 : ℤ) : ℚ) / 2 = (k : ℚ) + 1/2 := by push_cast; ring
    rw [h2, pyRound_int_add_half]
    unfold pyRoundHalf
    rw [if_neg (by omega : ¬((2 * k + 1) % 2 = 0))]
    have hd : (2 * k + 1 - 1) / 2 = k := by omega
    rw [hd]

/-! ## Lemmas about the duration estimator -/

theorem overlapDuration_max (ds : List Int) (m : Int) (hm : m ∈ ds)
    (hmax : ∀ x ∈ ds, x ≤ m) :
    overlapDuration ds = pyRound ((m : ℚ) + (1/2) * ((ds.sum - m : ℤ) : ℚ)) := by
  have hne : ds ≠ [] := by rintro rfl; exact absurd hm (List.not_mem_nil m)
  unfold overlapDuration
  rw [if_neg hne]
  cases hs : ds.insertionSort (fun a b => a ≥ b) with
  | nil =>
    exfalso
    have hp := List.perm_insertionSort (fun a b => a ≥ b) ds
    rw [hs] at hp
    exact hne hp.symm.eq_nil
  | cons h t =>
    have hp := List.perm_insertionSort (fun a b => a ≥ b) ds
    rw [hs] at hp
    have hsorted := List.sorted_insertionSort (fun a b => a ≥ b) ds
    rw [hs] at hsorted
    have hht : ∀ x ∈ t, h ≥ x := (List.sorted_cons.mp hsorted).1
    have hmem : h ∈ ds := hp.mem_iff.mp (List.mem_cons_self h t)
    have hmh : m = h := by
      refine le_antisymm ?_ (hmax h hmem)
      rcases List.mem_cons.mp (hp.mem_iff.mpr hm) with rfl | hmt
      · exact le_refl m
      · exact hht m hmt
    have hsum : h + t.sum = ds.sum := by
      have := hp.sum_eq
      simpa using this
    subst hmh
    have htsum : t.sum = ds.sum - m := by omega
    show pyRoundHalf (2 * m + t.sum) = _
    rw [htsum, pyRoundHalf_eq_pyRound]
    congr 1
    push_cast
    ring

/-! ## Lemmas about the price estimator -/

theorem priceStep_eq (st : DBState) (vt : Option Int) (acc : Int) (sid : Int) :
    priceStep st vt acc sid = acc + priceContribution st vt sid := by
  unfold priceStep priceContribution
  cases st.service_prices.find? (spPred sid vt) <;> simp

theorem price_foldl (st : DBState) (vt : Option Int) :
    ∀ (sids : List Int) (acc : Int),
      sids.foldl (priceStep st vt) acc = acc + (sids.map (priceContribution st vt)).sum
  | [], acc => by simp
  | x :: xs, acc => by
    simp only [List.foldl_cons, List.map_cons, List.sum_cons]
    rw [price_foldl st vt xs (priceStep st vt acc x), priceStep_eq]
    ring

theorem calculate_real_price_eq_sum (st : DBState) (vt : Option Int) (sids : List Int) :
    calculate_real_price st sids vt = (sids.map (priceContribution st vt)).sum := by
  unfold calculate_real_price
  rw [price_foldl]
  ring

theorem priceContribution_none (st : DBState) (sid : Int) :
    priceContribution st none sid = 0 := by
  unfold priceContribution
  have hfind : st.service_prices.find? (spPred sid none) = none := by
    rw [List.find?_eq_none]
    intro sp _
    simp [spPred]
  rw [hfind]

theorem calculate_real_price_none (st : DBState) (sids : List Int) :
    calculate_real_price st sids none = 0 := by
  rw [calculate_real_price_eq_sum]
  induction sids with
  | nil => rfl
  | cons x xs ih => simp [priceContribution_none, ih]

/-! ## Lemmas about the closing workflow -/

theorem close_ok_inv (st : DBState) (id : Int) (req : CloseRequest) (now : Datetime)
    (st' : DBState) (h : close_appointment st id req now = (CloseResult.ok, st')) :
    ∃ appt, st.appointments.find? (fun a => a.id == id) = some appt ∧
      st' = { st with sales := st.sales ++ [mkSale st appt req now] } := by
  unfold close_appointment at h
  split at h
  · simp at h
  next appt hfind =>
    split at h
    · simp at h
    · split at h
      · simp at h
      · split at h
        · simp at h
        · injection h with hl hr
          exact ⟨appt, hfind, hr.symm⟩

theorem close_success (st : DBState) (id : Int) (req : CloseRequest) (now : Datetime)
    (appt : Appointment)
    (hfind : st.appointments.find? (fun a => a.id == id) = some appt)
    (hclosed : appointment_already_closed st id = false)
    (hstatus : closeStatus req = "completed" ∨ closeStatus req = "cancelled")
    (hpm : closeStatus req = "completed" → closePM req ≠ "") :
    close_appointment st id req now =
      (CloseResult.ok, { st with sales := st.sales ++ [mkSale st appt req now] }) := by
  have h2 : ¬(closeStatus req = "completed" ∧ closePM req = "") := fun hc => hpm hc.1 hc.2
  simp [close_appointment, hfind, hclosed, not_not_intro hstatus, h2]

/-! ## Auxiliary lemmas for the edit-route fallback and the client upsert -/

theorem foldl_max_mem : ∀ (l : List Int) (d : Int), l.foldl max d = d ∨ l.foldl max d ∈ l
  | [], _ => Or.inl rfl
  | x :: xs, d => by
    simp only [List.foldl_cons]
    rcases foldl_max_mem xs (max d x) with h | h
    · rcases le_total d x with hle | hle
      · right
        rw [h, max_eq_right hle]
        exact List.mem_cons_self x xs
      · left
        rw [h, max_eq_left hle]
    · right
      exact List.mem_cons_of_mem x h

theorem le_foldl_max : ∀ (l : List Int) (d : Int),
    d ≤ l.foldl max d ∧ ∀ x ∈ l, x ≤ l.foldl max d
  | [], d => ⟨le_refl d, by simp⟩
  | x :: xs, d => by
    obtain ⟨h1, h2⟩ := le_foldl_max xs (max d x)
    simp only [List.foldl_cons]
    refine ⟨le_trans (le_max_left d x) h1, ?_⟩
    intro y hy
    rcases List.mem_cons.mp hy with rfl | hmem
    · exact le_trans (le_max_right d y) h1
    · exact h2 y hmem

theorem sum_sub_mem_nonneg (l : List Int) (m : Int) (hm : m ∈ l)
    (hnn : ∀ x ∈ l, 0 ≤ x) : 0 ≤ l.sum - m := by
  obtain ⟨s, t, rfl⟩ := List.append_of_mem hm
  have hs : 0 ≤ s.sum := List.sum_nonneg (fun x hx => hnn x (by simp [hx]))
  have ht : 0 ≤ t.sum := List.sum_nonneg (fun x hx => hnn x (by simp [hx]))
  simp only [List.sum_append, List.sum_cons]
  omega

theorem pyRound_half_bounds (L e : Int) (he : 0 ≤ e) :
    L + Int.tdiv e 2 ≤ pyRound ((L : ℚ) + (1/2) * ((e : ℤ) : ℚ))
  ∧ pyRound ((L : ℚ) + (1/2) * ((e : ℤ) : ℚ)) ≤ L + Int.tdiv e 2 + 1 := by
  have htd : Int.tdiv e 2 = e / 2 := Int.tdiv_eq_ediv he (by norm_num)
  have hq : (L : ℚ) + (1/2) * ((e : ℤ) : ℚ) = ((2 * L + e : ℤ) : ℚ) / 2 := by
    push_cast
    ring
  rw [hq, ← pyRoundHalf_eq_pyRound, htd]
  unfold pyRoundHalf
  split_ifs <;> omega

theorem find?_map_plate (plate_n : String) (f : Client → Client)
    (hf : ∀ c, (f c).plate = c.plate) (clients : List Client) :
    (clients.map f).find? (fun c => c.plate == plate_n)
      = (clients.find? (fun c => c.plate == plate_n)).map f := by
  have hp : ((fun c => c.plate == plate_n) ∘ f) = fun c => c.plate == plate_n := by
    funext c
    simp [Function.comp, hf]
  rw [List.find?_map, hp]

/-! ## Claim theorems -/

/-- Claim C1: for every non-empty list of resolved service durations,
`calculate_real_duration_minutes` returns `round(longest + 0.5 * sum(others))`
after sorting descending, where `longest` is a maximum of the resolved list
and `round` is a fixed round-half-to-even (`pyRound`); and whenever no
duration resolves (empty or all-unknown service ids) it returns exactly 60. -/
theorem calculate_real_duration_minutes_spec (st : DBState) (service_ids : List Int)
    (vt : Option Int) :
    (resolvedDurations st service_ids vt = [] →
       calculate_real_duration_minutes st service_ids vt = 60)
  ∧ (∀ m ∈ resolvedDurations st service_ids vt,
       (∀ x ∈ resolvedDurations st service_ids vt, x ≤ m) →
       calculate_real_duration_minutes st service_ids vt
         = pyRound ((m : ℚ) + (1/2) * (((resolvedDurations st service_ids vt).sum - m : ℤ) : ℚ))) := by
  constructor
  · intro h
    unfold calculate_real_duration_minutes
    rw [h]
    rfl
  · intro m hm hmax
    exact overlapDuration_max _ m hm hmax

/-- Witness for C1 at a concrete catalog: durations 160/60/60 resolve, 160 is
their maximum, and the estimator returns the claimed rounded value, 220. -/
theorem calculate_real_duration_minutes_spec_witness :
    (160 ∈ resolvedDurations exSt3 [1, 2, 3] (some 1))
  ∧ calculate_real_duration_minutes exSt3 [1, 2, 3] (some 1)
      = pyRound ((160 : ℚ) + (1/2) * (((resolvedDurations exSt3 [1, 2, 3] (some 1)).sum - 160 : ℤ) : ℚ))
  ∧ calculate_real_duration_minutes exSt3 [1, 2, 3] (some 1) = 220 := by
  refine ⟨by decide, ?_, by decide⟩
  exact (calculate_real_duration_minutes_spec exSt3 [1, 2, 3] (some 1)).2 160 (by decide) (by decide)

/-- Claim C8: `calculate_real_price` equals the sum of the per-service
contributions (the matching active ServicePrice row's price, 0 when none
matches), and is invariant under permuting the service ids. -/
theorem calculate_real_price_additive_perm (st : DBState) (vt : Option Int)
    (sids sids' : List Int) (hperm : sids.Perm sids') :
    calculate_real_price st sids vt = (sids.map (priceContribution st vt)).sum
  ∧ calculate_real_price st sids vt = calculate_real_price st sids' vt := by
  refine ⟨calculate_real_price_eq_sum st vt sids, ?_⟩
  rw [calculate_real_price_eq_sum st vt sids, calculate_real_price_eq_sum st vt sids']
  exact (hperm.map (priceContribution st vt)).sum_eq

/-- Witness for C8: swapping two priced services (plus an unknown id 99 that
contributes 0) leaves the total unchanged, 180. -/
theorem calculate_real_price_additive_perm_witness :
    calculate_real_price exCloseSt [1, 2, 99] (some 7)
      = ([1, 2, 99].map (priceContribution exCloseSt (some 7))).sum
  ∧ calculate_real_price exCloseSt [1, 2, 99] (some 7)
      = calculate_real_price exCloseSt [2, 1, 99] (some 7)
  ∧ calculate_real_price exCloseSt [1, 2, 99] (some 7) = 180 := by
  have h := calculate_real_price_additive_perm exCloseSt (some 7) [1, 2, 99] [2, 1, 99]
    (List.Perm.swap 2 1 [99])
  exact ⟨h.1, h.2, by decide⟩

/-- Claim C2: closing an open appointment twice in sequence: the first call
succeeds and creates the single ServiceSale row for that appointment id, the
second call (with any request) fails with the 400 already-closed error and
does not add a row — exactly one ServiceSale referencing the appointment
exists afterward. -/
theorem close_appointment_twice (st : DBState) (id : Int) (req req' : CloseRequest)
    (now now' : Datetime) (appt : Appointment)
    (hfind : st.appointments.find? (fun a => a.id == id) = some appt)
    (hempty : st.sales.filter (fun s => s.appointment_id == id) = [])
    (hstatus : closeStatus req = "completed" ∨ closeStatus req = "cancelled")
    (hpm : closeStatus req = "completed" → closePM req ≠ "") :
    (close_appointment st id req now).1 = CloseResult.ok
  ∧ ((close_appointment st id req now).2.sales.filter
       (fun s => s.appointment_id == id)).length = 1
  ∧ (close_appointment (close_appointment st id req now).2 id req' now').1
      = CloseResult.alreadyClosed
  ∧ ((close_appointment (close_appointment st id req now).2 id req' now').2.sales.filter
       (fun s => s.appointment_id == id)).length = 1 := by
  have hall : ∀ s ∈ st.sales, ¬((s.appointment_id == id) = true) :=
    List.filter_eq_nil_iff.mp hempty
  have hclosed : appointment_already_closed st id = false := by
    unfold appointment_already_closed
    rw [List.find?_eq_none.mpr hall]
    rfl
  have h1 := close_success st id req now appt hfind hclosed hstatus hpm
  set st1 : DBState := { st with sales := st.sales ++ [mkSale st appt req now] } with hst1
  have happt : appt.id = id := by
    have := List.find?_some hfind
    simpa using this
  have hsale_p : ((mkSale st appt req now).appointment_id == id) = true := by
    show (appt.id == id) = true
    simp [happt]
  have hfilter : st1.sales.filter (fun s => s.appointment_id == id) = [mkSale st appt req now] := by
    show (st.sales ++ [mkSale st appt req now]).filter (fun s => s.appointment_id == id) = _
    rw [List.filter_append, hempty]
    simp [hsale_p]
  have hmem1 : mkSale st appt req now ∈ st1.sales := by
    show _ ∈ st.sales ++ [mkSale st appt req now]
    simp
  have hclosed1 : appointment_already_closed st1 id = true := by
    show (st1.sales.find? (fun s => s.appointment_id == id)).isSome = true
    exact List.find?_isSome.mpr ⟨mkSale st appt req now, hmem1, hsale_p⟩
  have hfind1 : st1.appointments.find? (fun a => a.id == id) = some appt := hfind
  have h2 : close_appointment st1 id req' now' = (CloseResult.alreadyClosed, st1) := by
    simp [close_appointment, hfind1, hclosed1]
  rw [h1]
  refine ⟨rfl, ?_, ?_, ?_⟩
  · rw [hfilter]
    rfl
  · show (close_appointment st1 id req' now').1 = CloseResult.alreadyClosed
    rw [h2]
  · show ((close_appointment st1 id req' now').2.sales.filter
       (fun s => s.appointment_id == id)).length = 1
    rw [h2]
    show (st1.sales.filter (fun s => s.appointment_id == id)).length = 1
    rw [hfilter]
    rfl

/-- Witness for C2: closing the concrete open appointment of `exCloseSt`
twice — first call ok, second already-closed, one sale row in the end. -/
theorem close_appointment_twice_witness :
    (close_appointment exCloseSt 1 exCloseReq ⟨1, 700⟩).1 = CloseResult.ok
  ∧ ((close_appointment exCloseSt 1 exCloseReq ⟨1, 700⟩).2.sales.filter
       (fun s => s.appointment_id == 1)).length = 1
  ∧ (close_appointment (close_appointment exCloseSt 1 exCloseReq ⟨1, 700⟩).2 1 exCancelReq ⟨2, 0⟩).1
      = CloseResult.alreadyClosed
  ∧ ((close_appointment (close_appointment exCloseSt 1 exCloseReq ⟨1, 700⟩).2 1 exCancelReq ⟨2, 0⟩).2.sales.filter
       (fun s => s.appointment_id == 1)).length = 1 :=
  close_appointment_twice exCloseSt 1 exCloseReq exCancelReq ⟨1, 700⟩ ⟨2, 0⟩
    ⟨1, some "Ana", some "ABC123", some "300", "A, B", ⟨1, 540⟩, ⟨1, 630⟩, none, some 7⟩
    (by decide) (by decide) (Or.inl (by decide)) (fun _ => by decide)

/-- Claim C3: every successful close stores `discount_amount = max(discount, 0)`
and `final_amount = max(base_amount - discount_amount, 0)`, for any integer
discount input. -/
theorem close_appointment_discount_clamps (st : DBState) (id : Int) (req : CloseRequest)
    (now : Datetime) (st' : DBState)
    (hok : close_appointment st id req now = (CloseResult.ok, st')) :
    ∃ sale, st'.sales = st.sales ++ [sale]
      ∧ sale.discount_amount = max (closeDiscount req) 0
      ∧ sale.final_amount = max (sale.base_amount - sale.discount_amount) 0 := by
  obtain ⟨appt, hfind, rfl⟩ := close_ok_inv st id req now st' hok
  exact ⟨mkSale st appt req now, rfl, rfl, rfl⟩

/-- Witness for C3: closing with discount 300 against base 180 succeeds and
the stored amounts satisfy the clamping equations (final floors at 0). -/
theorem close_appointment_discount_clamps_witness :
    close_appointment exCloseSt 1 exCloseReq ⟨1, 700⟩ = (CloseResult.ok, exC3St)
  ∧ (∃ sale, exC3St.sales = exCloseSt.sales ++ [sale]
      ∧ sale.discount_amount = max (closeDiscount exCloseReq) 0
      ∧ sale.final_amount = max (sale.base_amount - sale.discount_amount) 0)
  ∧ exC3St.sales.map (fun s => (s.base_amount, s.discount_amount, s.final_amount))
      = [(180, 300, 0)] :=
  ⟨by decide,
   close_appointment_discount_clamps exCloseSt 1 exCloseReq ⟨1, 700⟩ exC3St (by decide),
   by decide⟩

/-- Claim C7: a successful close with status `"cancelled"` stores
`payment_method` as absent, whatever payment method the request carried. -/
theorem close_cancelled_clears_payment (st : DBState) (id : Int) (req : CloseRequest)
    (now : Datetime) (st' : DBState)
    (hcancel : closeStatus req = "cancelled")
    (hok : close_appointment st id req now = (CloseResult.ok, st')) :
    ∃ sale, st'.sales = st.sales ++ [sale] ∧ sale.payment_method = none := by
  obtain ⟨appt, hfind, rfl⟩ := close_ok_inv st id req now st' hok
  refine ⟨mkSale st appt req now, rfl, ?_⟩
  show (if closeStatus req = "completed" then some (closePM req) else none) = none
  rw [if_neg (by rw [hcancel]; decide)]

/-- Witness for C7: the cancelled close of `exCloseSt`'s appointment supplies
`"Efectivo"` but the stored sale has no payment method. -/
theorem close_cancelled_clears_payment_witness :
    closeStatus exCancelReq = "cancelled"
  ∧ close_appointment exCloseSt 1 exCancelReq ⟨1, 700⟩ = (CloseResult.ok, exC7St)
  ∧ (∃ sale, exC7St.sales = exCloseSt.sales ++ [sale] ∧ sale.payment_method = none) :=
  ⟨by decide, by decide,
   close_cancelled_clears_payment exCloseSt 1 exCancelReq ⟨1, 700⟩ exC7St (by decide) (by decide)⟩

/-- Claim C10: closing an appointment whose `vehicle_type_id` is null still
succeeds (valid inputs, no prior sale assumed); the sale records vehicle type
"N/A" and base amount 0, since no ServicePrice row matches a null vehicle
type. -/
theorem close_null_vehicle_type (st : DBState) (id : Int) (req : CloseRequest)
    (now : Datetime) (appt : Appointment)
    (hfind : st.appointments.find? (fun a => a.id == id) = some appt)
    (hvt : appt.vehicle_type_id = none)
    (hclosed : appointment_already_closed st id = false)
    (hstatus : closeStatus req = "completed" ∨ closeStatus req = "cancelled")
    (hpm : closeStatus req = "completed" → closePM req ≠ "") :
    (close_appointment st id req now).1 = CloseResult.ok
  ∧ ∃ sale, (close_appointment st id req now).2.sales = st.sales ++ [sale]
      ∧ sale.vehicle_type = "N/A" ∧ sale.base_amount = 0 := by
  have h1 := close_success st id req now appt hfind hclosed hstatus hpm
  rw [h1]
  refine ⟨rfl, mkSale st appt req now, rfl, ?_, ?_⟩
  · show (match appt.vehicle_type_id.bind
        (fun vid => st.vehicle_types.find? (fun v => v.id == vid)) with
      | some vt => vt.name
      | none => "N/A") = "N/A"
    rw [hvt]
    rfl
  · show calculate_real_price st _ appt.vehicle_type_id = 0
    rw [hvt]
    exact calculate_real_price_none st _

/-- Witness for C10: closing the vehicle-type-less appointment of
`exNullVtSt` (completed, with payment method) yields a sale with vehicle type
"N/A" and base amount 0. -/
theorem close_null_vehicle_type_witness :
    (close_appointment exNullVtSt 1 exCloseReq ⟨1, 700⟩).1 = CloseResult.ok
  ∧ ∃ sale, (close_appointment exNullVtSt 1 exCloseReq ⟨1, 700⟩).2.sales
        = exNullVtSt.sales ++ [sale]
      ∧ sale.vehicle_type = "N/A" ∧ sale.base_amount = 0 :=
  close_null_vehicle_type exNullVtSt 1 exCloseReq ⟨1, 700⟩
    ⟨1, some "Ana", some "ABC123", some "300", "A, B", ⟨1, 540⟩, ⟨1, 630⟩, none, none⟩
    (by decide) (by decide) (by decide) (Or.inl (by decide)) (fun _ => by decide)

/-- Claim C4 counterexample: closing (on day 5, as both the call time and the
insert time) an appointment that started on day 1 stores `service_date = 1`,
not the close-operation date 5 — the record-writing time `created_at` does
carry day 5, so `service_date` is neither of the dates named by the claim. -/
theorem close_service_date_counterexample :
    (close_appointment exCloseSt 1 exCloseReq ⟨5, 600⟩).1 = CloseResult.ok
  ∧ ((close_appointment exCloseSt 1 exCloseReq ⟨5, 600⟩).2.sales.map
       (fun s => s.service_date)) = [1]
  ∧ ((close_appointment exCloseSt 1 exCloseReq ⟨5, 600⟩).2.sales.map
       (fun s => s.created_at.day)) = [5]
  ∧ (1 : Int) ≠ 5 := by decide

/-- Claim C4 (amended): every successful close stores as `service_date` the
date of the appointment's `start_datetime` (the scheduled service day), which
is independent of both the close-operation time and the record-writing
time. -/
theorem close_sale_service_date_is_start_date (st : DBState) (id : Int)
    (req : CloseRequest) (now : Datetime) (st' : DBState)
    (hok : close_appointment st id req now = (CloseResult.ok, st')) :
    ∃ appt sale, st.appointments.find? (fun a => a.id == id) = some appt
      ∧ st'.sales = st.sales ++ [sale]
      ∧ sale.service_date = appt.start_datetime.day := by
  obtain ⟨appt, hfind, rfl⟩ := close_ok_inv st id req now st' hok
  exact ⟨appt, mkSale st appt req now, hfind, rfl, rfl⟩

/-- Witness for the amended C4: the day-2 close of the day-1 appointment
stores its start day, 1. -/
theorem close_sale_service_date_is_start_date_witness :
    close_appointment exCloseSt 1 exCloseReq ⟨2, 100⟩ = (CloseResult.ok, exC4St)
  ∧ (∃ appt sale, exCloseSt.appointments.find? (fun a => a.id == 1) = some appt
      ∧ exC4St.sales = exCloseSt.sales ++ [sale]
      ∧ sale.service_date = appt.start_datetime.day)
  ∧ exC4St.sales.map (fun s => s.service_date) = [1] :=
  ⟨by decide,
   close_sale_service_date_is_start_date exCloseSt 1 exCloseReq ⟨2, 100⟩ exC4St (by decide),
   by decide⟩

/-- Claim C5: every appointment persisted by `new_appointment` satisfies
`end_datetime = start_datetime + estimate_duration(resolved service ids,
vehicle type)` minutes, and the appointment is appended to the table. -/
theorem new_appointment_end_eq_start_add_duration (st : DBState) (form : ApptForm)
    (start : Datetime) (vtid : Int) (st' : DBState) (appt : Appointment)
    (hstart : form.start = some start) (hvt : form.vehicle_type_id = some vtid)
    (hok : new_appointment st form = CreateResult.ok st' appt) :
    appt.start_datetime = start
  ∧ appt.end_datetime = start.addMinutes
      (calculate_real_duration_minutes st
        ((selectedServices st form.service_ids).map (fun s => s.id)) (some vtid))
  ∧ st'.appointments = st.appointments ++ [appt] := by
  unfold new_appointment at hok
  rw [hstart, hvt] at hok
  split at hok
  · simp at hok
  · split at hok
    · simp at hok
    · split at hok
      · simp at hok
      · split at hok
        next _ _ start_dt vtid2 heq1 heq2 =>
          injection heq1 with e1
          injection heq2 with e2
          subst e1
          subst e2
          split at hok
          · simp at hok
          · injection hok with h1 h2
            subst h1
            subst h2
            exact ⟨rfl, rfl, rfl⟩
        next _ _ heq => simp at heq
        next _ _ heq _ => simp at heq

/-- Witness for C5 — the end-to-end case of the specification: three services
of base durations 160/60/60, a vehicle type with no price rows, start 09:00 of
day 0; the persisted appointment ends 220 minutes later at 12:40. -/
theorem new_appointment_end_eq_start_add_duration_witness :
    new_appointment exSt3 exForm3 = CreateResult.ok exSt3' exAppt3
  ∧ exAppt3.end_datetime = Datetime.mk 0 760
  ∧ exAppt3.end_datetime = (Datetime.mk 0 540).addMinutes
      (calculate_real_duration_minutes exSt3
        ((selectedServices exSt3 exForm3.service_ids).map (fun s => s.id)) (some 1)) := by
  refine ⟨by decide, by decide, ?_⟩
  exact (new_appointment_end_eq_start_add_duration exSt3 exForm3 ⟨0, 540⟩ 1 exSt3' exAppt3
    rfl rfl (by decide)).2.1

/-- Claim C6 counterexample: editing the vehicle-type-less appointment of
`exStC6` with services of base durations 60 and 51 recomputes
`end = start + 85` (the legacy fallback truncates `60 + int(51 * 0.5)`),
while the creation formula `round(longest + 0.5 * sum(others))` on the same
services gives 86 — so the edit path and the create path disagree. -/
theorem edit_duration_counterexample :
    (edit_appointment exStC6 1 exEditForm).map (fun st => st.appointments.map (fun a => a.end_datetime))
      = some [Datetime.mk 0 85]
  ∧ calculate_real_duration_minutes exStC6 [1, 2] (some 7) = 86
  ∧ Datetime.mk 0 85
      ≠ (Datetime.mk 0 0).addMinutes (calculate_real_duration_minutes exStC6 [1, 2] (some 7)) := by
  decide

/-- Claim C6 (amended): when the appointment carries a (truthy) vehicle type
id, the edit route recomputes the duration with exactly the creation formula
`calculate_real_duration_minutes`; when `vehicle_type_id` is null, the legacy
fallback truncates instead of rounding, so (for nonnegative base durations)
its result may fall below the creation formula `overlapDuration` by at most
one minute, and the 60-minute fallback for an empty selection agrees. -/
theorem edit_duration_amended (st : DBState) (sel : List Service) :
    (∀ vtid : Int, vtid ≠ 0 →
       edit_duration st sel (some vtid)
         = calculate_real_duration_minutes st (sel.map (fun s => s.id)) (some vtid))
  ∧ ((∀ s ∈ sel, 0 ≤ s.duration_minutes) →
       overlapDuration (sel.map (fun s => s.duration_minutes)) - 1
           ≤ edit_duration st sel none
       ∧ edit_duration st sel none
           ≤ overlapDuration (sel.map (fun s => s.duration_minutes))) := by
  constructor
  · intro vtid hvt
    unfold edit_duration
    rw [if_pos]
    exact hvt
  · intro hnn
    have hnn' : ∀ x ∈ sel.map (fun s => s.duration_minutes), 0 ≤ x := by
      intro x hx
      obtain ⟨s, hs, rfl⟩ := List.mem_map.mp hx
      exact hnn s hs
    unfold edit_duration
    rw [if_neg (by simp)]
    generalize hds : sel.map (fun s => s.duration_minutes) = ds0 at hnn' ⊢
    cases ds0 with
    | nil =>
      simp only [overlapDuration]
      norm_num
    | cons d ds =>
      obtain ⟨hdle, hmax⟩ := le_foldl_max ds d
      have hLmem : ds.foldl max d ∈ d :: ds := by
        rcases foldl_max_mem ds d with h | h
        · rw [h]; exact List.mem_cons_self d ds
        · exact List.mem_cons_of_mem d h
      have hLmax : ∀ x ∈ d :: ds, x ≤ ds.foldl max d := by
        intro x hx
        rcases List.mem_cons.mp hx with rfl | hmem
        · exact hdle
        · exact hmax x hmem
      have he : 0 ≤ (d :: ds).sum - ds.foldl max d :=
        sum_sub_mem_nonneg (d :: ds) (ds.foldl max d) hLmem hnn'
      have hover := overlapDuration_max (d :: ds) (ds.foldl max d) hLmem hLmax
      obtain ⟨hb1, hb2⟩ := pyRound_half_bounds (ds.foldl max d) ((d :: ds).sum - ds.foldl max d) he
      rw [hover]
      refine ⟨?_, ?_⟩
      · show pyRound _ - 1 ≤ ds.foldl max d + Int.tdiv ((d :: ds).sum - ds.foldl max d) 2
        omega
      · show ds.foldl max d + Int.tdiv ((d :: ds).sum - ds.foldl max d) 2 ≤ pyRound _
        omega

/-- Witness for the amended C6 on the concrete catalog `exStC6`: with vehicle
type 7 the edit duration equals the creation formula, and without a vehicle
type it stays within one minute below the creation formula (85 vs 86). -/
theorem edit_duration_amended_witness :
    edit_duration exStC6 exSel (some 7)
      = calculate_real_duration_minutes exStC6 (exSel.map (fun s => s.id)) (some 7)
  ∧ overlapDuration (exSel.map (fun s => s.duration_minutes)) - 1
      ≤ edit_duration exStC6 exSel none
  ∧ edit_duration exStC6 exSel none
      ≤ overlapDuration (exSel.map (fun s => s.duration_minutes)) := by
  have h := edit_duration_amended exStC6 exSel
  have h2 := h.2 (by decide)
  exact ⟨h.1 7 (by decide), h2.1, h2.2⟩

/-- The first row matching a plate after a plate-preserving conditional update
is the update of the first row that matched before. -/
theorem find?_map_upd (plate_n : String) (upd : Client → Client)
    (hupd : ∀ c, (upd c).plate = c.plate) :
    ∀ (clients : List Client) (c0 : Client),
      clients.find? (fun c => c.plate == plate_n) = some c0 →
      (clients.map (fun c => if c.plate == plate_n then upd c else c)).find?
          (fun c => c.plate == plate_n) = some (upd c0)
  | [], c0 => by intro h; simp at h
  | c :: cs, c0 => by
    intro h
    by_cases hc : (c.plate == plate_n) = true
    · simp only [List.find?_cons, hc] at h
      injection h with h0
      subst h0
      have h2 : ((upd c).plate == plate_n) = true := by rw [hupd]; exact hc
      simp only [List.map_cons, if_pos hc, List.find?_cons, h2]
    · have hcf : (c.plate == plate_n) = false := by simpa using hc
      simp only [List.find?_cons, hcf] at h
      simp only [List.map_cons, if_neg hc]
      simp only [List.find?_cons, hcf]
      exact find?_map_upd plate_n upd hupd cs c0 h

/-- Claim C9: when the Client upsert performed by creating or editing an
appointment runs against a stored client for the same (normalized) plate, a
blank incoming full name leaves the stored full name untouched, and a blank
incoming phone leaves the stored phone untouched. -/
theorem upsert_blank_preserves (clients : List Client) (plate : String)
    (full_name phone : Option String) (c0 : Client)
    (hfind : clients.find? (fun c => c.plate == normalize_plate (some plate)) = some c0) :
    ∃ c1, (upsert_client_from_appointment clients plate full_name phone).find?
            (fun c => c.plate == normalize_plate (some plate)) = some c1
      ∧ (pyStrip (full_name.getD "") = "" → c1.full_name = c0.full_name)
      ∧ (pyStrip (phone.getD "") = "" → c1.phone = c0.phone) := by
  by_cases hp : normalize_plate (some plate) = ""
  · refine ⟨c0, ?_, fun _ => rfl, fun _ => rfl⟩
    simp only [upsert_client_from_appointment]
    rw [if_pos hp]
    exact hfind
  · have hfound : (upsert_client_from_appointment clients plate full_name phone).find?
        (fun c => c.plate == normalize_plate (some plate))
        = some { c0 with
            full_name := if pyStrip (full_name.getD "") ≠ "" then some (pyStrip (full_name.getD ""))
              else c0.full_name
            phone := if pyStrip (phone.getD "") ≠ "" then some (pyStrip (phone.getD ""))
              else c0.phone } := by
      simp only [upsert_client_from_appointment, hfind]
      rw [if_neg hp]
      refine find?_map_upd _ _ ?_ clients c0 hfind
      intro c
      rfl
    refine ⟨_, hfound, ?_, ?_⟩
    · intro hblank
      simp [hblank]
    · intro hblank
      simp [hblank]

/-- Witness for C9: upserting plate "ABC123" with a whitespace-only name and
an empty phone leaves the stored "Ana" / "300" unchanged. -/
theorem upsert_blank_preserves_witness :
    ∃ c1, (upsert_client_from_appointment exClients " abc 123 " (some "   ") (some "")).find?
            (fun c => c.plate == normalize_plate (some " abc 123 ")) = some c1
      ∧ (pyStrip ((some "   ").getD "") = "" → c1.full_name = some "Ana")
      ∧ (pyStrip ((some "").getD "") = "" → c1.phone = some "300") :=
  upsert_blank_preserves exClients " abc 123 " (some "   ") (some "")
    ⟨"ABC123", some "Ana", some "300"⟩ (by decide)
